import Mathlib

/-!
# Verification of the sunblocker flagging engine

A shallow embedding of `sunblocker/sunblocker.py` (class `Sunblocker`) and the
claims of the specification against it.

Python float values are modelled as exact fractions (`Q` below): every float
produced by the code paths examined here is an exact dyadic/decimal rational, and
all strict comparisons that appear in concrete evaluations have large margins, so
the exact-fraction model and IEEE doubles agree on every branch taken.  NaN is
modelled by `Option Q` with `none` for NaN.  External library routines that the
code calls (`scipy.optimize.curve_fit`, trigonometric functions, the `ephem`
rise/set solver) are modelled as function parameters.
-/

set_option maxRecDepth 40000

namespace Sunblocker

/-- Exact fraction with a positive denominator, modelling a Python float value.
No gcd normalisation is performed, so all arithmetic is plain `Int` arithmetic. -/
structure Q where
  num : Int
  den : Int
  dpos : 0 < den

/-- Embed an integer. -/
def Q.ofInt (n : Int) : Q := ⟨n, 1, by norm_num⟩

/-- Addition of fractions. -/
def Q.add (a b : Q) : Q := ⟨a.num * b.den + b.num * a.den, a.den * b.den, mul_pos a.dpos b.dpos⟩

/-- Subtraction of fractions. -/
def Q.sub (a b : Q) : Q := ⟨a.num * b.den - b.num * a.den, a.den * b.den, mul_pos a.dpos b.dpos⟩

/-- Multiplication of fractions. -/
def Q.mul (a b : Q) : Q := ⟨a.num * b.num, a.den * b.den, mul_pos a.dpos b.dpos⟩

/-- Division by a natural number; division by zero never occurs on the modelled
paths (the fallback returns the dividend). -/
def Q.divNat (a : Q) (n : Nat) : Q :=
  if h : 0 < (n : Int) then ⟨a.num, a.den * n, mul_pos a.dpos h⟩ else a

/-- Division by a fraction.  Python float division by zero yields `inf` without
raising; such a value is never consumed by the control flow modelled here, so the
zero-divisor fallback is arbitrary. -/
def Q.divQ (a b : Q) : Q :=
  if h : 0 < b.num then ⟨a.num * b.den, a.den * b.num, mul_pos a.dpos h⟩
  else if h2 : b.num < 0 then ⟨-(a.num * b.den), a.den * (-b.num), mul_pos a.dpos (by omega)⟩
  else Q.ofInt 0

/-- Absolute value. -/
def Q.abs (a : Q) : Q := ⟨(a.num.natAbs : Int), a.den, a.dpos⟩

/-- Order on fractions (valid because denominators are positive). -/
def Q.le (a b : Q) : Prop := a.num * b.den ≤ b.num * a.den

/-- Strict order on fractions. -/
def Q.lt (a b : Q) : Prop := a.num * b.den < b.num * a.den

instance (a b : Q) : Decidable (Q.le a b) := by unfold Q.le; infer_instance

instance (a b : Q) : Decidable (Q.lt a b) := by unfold Q.lt; infer_instance

/-- Boolean comparison `a <= b`. -/
def Q.ble (a b : Q) : Bool := decide (Q.le a b)

/-- Boolean comparison `a < b`. -/
def Q.blt (a b : Q) : Bool := decide (Q.lt a b)

/-- Boolean value equality (equality of the represented rationals). -/
def Q.beq (a b : Q) : Bool := decide (a.num * b.den = b.num * a.den)

/-- The rational value represented by a `Q`. -/
def Q.toRat (a : Q) : ℚ := (a.num : ℚ) / (a.den : ℚ)

instance : DecidableEq Q :=
  fun a b =>
    if h : a.num = b.num ∧ a.den = b.den then
      isTrue (by
        cases a with
        | mk n d p =>
          cases b with
          | mk n2 d2 p2 =>
            simp only at h
            cases h.1
            cases h.2
            rfl)
    else
      isFalse (fun hc => by cases hc; exact h ⟨rfl, rfl⟩)

/-- Insertion of a value into a `Q.ble`-sorted list. -/
def insertQ (x : Q) : List Q → List Q
  | [] => [x]
  | y :: ys => if Q.ble x y then x :: y :: ys else y :: insertQ x ys

/-- Insertion sort by value, modelling `np.sort` (only the sorted multiset is
ever consumed, so the sorting algorithm itself is immaterial). -/
def sortQ : List Q → List Q
  | [] => []
  | x :: xs => insertQ x (sortQ xs)

/-- Remove adjacent duplicates (by value) from a list. -/
def dedupQ : List Q → List Q
  | [] => []
  | [x] => [x]
  | x :: y :: ys => if Q.beq x y then dedupQ (y :: ys) else x :: dedupQ (y :: ys)

/-- Model of `np.unique`: the sorted list of distinct values. -/
def uniqueQ (xs : List Q) : List Q := dedupQ (sortQ xs)

/-- Sum of a list of fractions. -/
def sumQl (xs : List Q) : Q := xs.foldl Q.add (Q.ofInt 0)

/-- Model of `np.nanmean` restricted to the finite entries. -/
def meanQ (xs : List Q) : Q := (sumQl xs).divNat xs.length

/-- Model of `np.nanmedian` restricted to the finite entries: middle element,
or the average of the two middle elements for an even count. -/
def medianQ (xs : List Q) : Q :=
  let s := sortQ xs
  let n := s.length
  if n = 0 then Q.ofInt 0
  else if n % 2 = 1 then s.getD (n / 2) (Q.ofInt 0)
  else ((s.getD (n / 2 - 1) (Q.ofInt 0)).add (s.getD (n / 2) (Q.ofInt 0))).divNat 2

/-- The constant `1.482602218505602` by which `astropy.stats.mad_std` multiplies
the median absolute deviation (the float value of `1/Phi^-1(3/4)`). -/
def kMadStd : Q := ⟨1482602218505602, 1000000000000000, by norm_num⟩

/-- Model of `astropy.stats.mad_std` on a list of finite values. -/
def madStdQ (xs : List Q) : Q :=
  (medianQ (xs.map (fun x => (x.sub (medianQ xs)).abs))).mul kMadStd

/-- Population variance, the square of `np.nanstd` (ddof = 0). -/
def varQ (xs : List Q) : Q :=
  (sumQl (xs.map (fun x => (x.sub (meanQ xs)).mul (x.sub (meanQ xs))))).divNat xs.length

/-- Model of `np.sqrt` on a nonnegative fraction: exact whenever numerator and
denominator are perfect squares, which holds at every concrete evaluation in
this development (every evaluated standard deviation is 0). -/
def Q.sqrtApprox (a : Q) : Q :=
  if Q.ble a (Q.ofInt 0) then Q.ofInt 0
  else ⟨(Nat.sqrt a.num.toNat : Int), (Nat.sqrt a.den.toNat : Int), by
    have hd : 0 < a.den.toNat := by have := a.dpos; omega
    exact_mod_cast Nat.sqrt_pos.mpr hd⟩

/-- The float value of `2 * np.pi`, used only in the Gaussian-fit fallback
amplitude (which is never consumed by the returned mask). -/
def twoPiQ : Q := ⟨6283185307179586, 1000000000000000, by norm_num⟩

/-- Finite (non-NaN) entries of a list. -/
def finiteVals (l : List (Option Q)) : List Q := l.filterMap id

/-- Line 199-205 of `sunblocker.py` (`histoclip`): the value assigned to the
grid cell `(uu, vv)`; the first entry of
`av[(gruvcoord[:,0]==uu)*(gruvcoord[:,1]==vv)*(mask!=True)]`, or NaN when that
selection is empty.  The selected entry may itself be NaN. -/
def cellValue (av : List (Option Q)) (mask : List Bool) (gruvcoord : List (Q × Q))
    (uu vv : Q) : Option Q :=
  let active := (List.zip av (List.zip gruvcoord mask)).filterMap
    (fun p => if Q.beq p.2.1.1 uu && Q.beq p.2.1.2 vv && !p.2.2 then some p.1 else none)
  match active with
  | [] => none
  | x :: _ => x

/-- Lines 191-206 of `sunblocker.py`: the flattened `uvgridded` array, one entry
per cell of the cartesian product `np.unique(gruvcoord[:,0]) x
np.unique(gruvcoord[:,1])`. -/
def uvgriddedOf (av : List (Option Q)) (mask : List Bool) (gruvcoord : List (Q × Q)) :
    List (Option Q) :=
  (uniqueQ (gruvcoord.map Prod.fst)).flatMap
    (fun uu => (uniqueQ (gruvcoord.map Prod.snd)).map
      (fun vv => cellValue av mask gruvcoord uu vv))

/-- One iteration of `astropy.stats.sigma_clip` with `cenfunc = np.nanmedian`
and `stdfunc = mad_std`: keep the values inside
`[median - sigma*mad_std, median + sigma*mad_std]` (astropy rejects strictly
outside the bounds). -/
def clipOnceQ (sigma : Q) (xs : List Q) : List Q :=
  let cen := medianQ xs
  let width := sigma.mul (madStdQ xs)
  xs.filter (fun x => Q.ble (cen.sub width) x && Q.ble x (cen.add width))

/-- `astropy.stats.sigma_clip` with `maxiters = None`: iterate `clipOnceQ` until
no further value is rejected.  The fuel argument is an upper bound on the number
of iterations; `length + 1` always suffices since each non-final iteration
strictly shrinks the list. -/
def sigmaClipQ : Nat → Q → List Q → List Q
  | 0, _, xs => xs
  | n + 1, sigma, xs =>
    let ys := clipOnceQ sigma xs
    if ys.length = xs.length then xs else sigmaClipQ n sigma ys

/-- Minimum of a list (used by `np.histogram`). -/
def minQl (xs : List Q) : Q := xs.foldl (fun a b => if Q.ble b a then b else a) (xs.headD (Q.ofInt 0))

/-- Maximum of a list (used by `np.histogram`). -/
def maxQl (xs : List Q) : Q := xs.foldl (fun a b => if Q.ble a b then b else a) (xs.headD (Q.ofInt 0))

/-- Bin edge `j` of `np.histogram(xs, bins = m)`. -/
def binEdge (xs : List Q) (m : Nat) (j : Nat) : Q :=
  (minQl xs).add ((((maxQl xs).sub (minQl xs)).mul (Q.ofInt j)).divNat m)

/-- Bin counts of `np.histogram(xs, bins = m)`: half-open bins, the last bin
closed. -/
def histogramCounts (xs : List Q) (m : Nat) : List Nat :=
  (List.range m).map (fun j =>
    xs.countP (fun x =>
      Q.ble (binEdge xs m j) x &&
      (if j + 1 = m then Q.ble x (binEdge xs m (j + 1)) else Q.blt x (binEdge xs m (j + 1)))))

/-- Bin centers `bin_edges[:-1] + 0.5*(bin_edges[1:] - bin_edges[:-1])`. -/
def binCenters (xs : List Q) (m : Nat) : List Q :=
  (List.range m).map (fun j =>
    (binEdge xs m j).add ((((maxQl xs).sub (minQl xs)).divNat m).divNat 2))

/-- The type of the external `scipy.optimize.curve_fit` call: bin centers,
histogram counts and the seed `p0 = (peak position, peak height, stdev/2)` to a
fitted `(centre, amplitude, sigma)`, or `none` when the fit raises. -/
def FitFun : Type := List Q → List Nat → (Q × Q × Q) → Option (Q × Q × Q)

/-- Lines 246-274 of `sunblocker.py`: build the histogram of the clipped
values, seed and run the Gaussian fit, and on fit failure fall back to
`[average, widthes[0]*npoints/(sqrt(2*pi)*stdev), stdev]`. -/
def fitBranch (fit : FitFun) (clipped : List Q) (npoints : Nat) (average stdev : Q) :
    Q × Q × Q :=
  let m := Nat.sqrt clipped.length + 1
  let counts := histogramCounts clipped m
  let centers := binCenters clipped m
  let maxhi := counts.foldl Nat.max 0
  let maxhiposval := centers.getD (counts.findIdx (fun c => c = maxhi)) (Q.ofInt 0)
  match fit centers counts (maxhiposval, Q.ofInt maxhi, stdev.divNat 2) with
  | some popt => popt
  | none =>
    (average,
     ((((maxQl clipped).sub (minQl clipped)).divNat m).mul (Q.ofInt npoints)).divQ
       ((Q.sqrtApprox twoPiQ).mul stdev),
     stdev)

/-- NaN-aware `>=` between a possibly-NaN value and a possibly-NaN bound: any
NaN operand makes the numpy comparison `False`. -/
def nanGeO (v : Option Q) (c : Option Q) : Bool :=
  match v, c with
  | some x, some cc => Q.ble cc x
  | _, _ => false

/-- Lines 289-293 of `sunblocker.py` (`histoclip`): the final clip
`select = av >= ave + threshold*std`, and-ed with the negation of the unflag
override when one is supplied.  `ave`/`std` are `none` when the corresponding
Python float is NaN. -/
def clipSelect (av : List (Option Q)) (ave std : Option Q) (threshold : Q)
    (unflags : Option (List Bool)) : List Bool :=
  let cut : Option Q :=
    match ave, std with
    | some a, some s => some (a.add (threshold.mul s))
    | _, _ => none
  let select := av.map (fun v => nanGeO v cut)
  match unflags with
  | none => select
  | some u => List.zipWith (fun s nu => s && !nu) select u

/-- The `histoclip` method (lines 141-361 of `sunblocker.py`).  Output: the
returned mask together with a flag recording whether the diagnostic plot block
(line 296, `if ax != None:`) executes.  The `ax` argument records whether a
diagnostic axis was supplied.  Notes tying the model to the source:
* lines 235-241: `average == np.nan` and `stdev == np.nan` are always `False`
  in Python (NaN is not `==` to anything), so these two returns are dead code
  and are not modelled as branches;
* line 244: `mad_std` is called with its default `ignore_nan=False` on the full
  `uvgridded_clipped` array, so `mad` is NaN as soon as that array contains any
  NaN, i.e. unless every grid cell is occupied and the sigma-clip rejected
  nothing;
* lines 276-287 are four independent `if` statements on mutually exclusive
  strings, modelled as a chain; no branch matches `"fixed"`, in which case line
  291 raises `UnboundLocalError` on `std`. -/
def histoclipM (fit : FitFun) (data : List (Option Q)) (mask : List Bool)
    (gruvcoord : List (Q × Q)) (unflags : Option (List Bool)) (threshmode : String)
    (threshold : Q) (ax : Bool) : Except String (List Bool × Bool) :=
  let av := data
  let uvgridded := uvgriddedOf av mask gruvcoord
  let vals := finiteVals uvgridded
  let npoints := vals.length
  if npoints < 3 then Except.ok (List.replicate av.length false, false)
  else
    let clipped := sigmaClipQ (npoints + 1) threshold vals
    let npointsClipped := clipped.length
    let average := meanQ clipped
    let stdev := Q.sqrtApprox (varQ clipped)
    let med := medianQ clipped
    let mad : Option Q :=
      if npointsClipped = npoints ∧ npoints = uvgridded.length
      then some (madStdQ clipped) else none
    let popt : Option (Q × Q × Q) :=
      if threshmode = "fit" ∨ ax = true
      then some (fitBranch fit clipped npoints average stdev) else none
    let stats : Option (Option Q × Option Q) :=
      if threshmode = "abs" then some (some (Q.ofInt 0), some (Q.ofInt 1))
      else if threshmode = "std" then some (some average, some stdev)
      else if threshmode = "mad" then some (some med, mad)
      else if threshmode = "fit" then popt.map (fun p => (some p.1, some p.2.2))
      else none
    match stats with
    | none => Except.error "UnboundLocalError: local variable std referenced before assignment"
    | some (ave, std) => Except.ok (clipSelect av ave std threshold unflags, ax)

/-- Stand-in for the external `scipy.optimize.curve_fit` in concrete
evaluations; none of the evaluated runs reaches the fit branch, so its value is
immaterial there. -/
def noFit : FitFun := fun _ _ _ => none

instance {e a : Type} [DecidableEq e] [DecidableEq a] : DecidableEq (Except e a) :=
  fun x y =>
    match x, y with
    | Except.ok v, Except.ok w =>
      if h : v = w then isTrue (congrArg Except.ok h)
      else isFalse (fun hc => h (Except.ok.inj hc))
    | Except.error v, Except.error w =>
      if h : v = w then isTrue (congrArg Except.error h)
      else isFalse (fun hc => h (Except.error.inj hc))
    | Except.ok _, Except.error _ => isFalse (fun hc => Except.noConfusion hc)
    | Except.error _, Except.ok _ => isFalse (fun hc => Except.noConfusion hc)

/-- Grid coordinates placing sample `i` at cell `(i, i)` (all samples land in
distinct occupied cells). -/
def diagCoords (n : Nat) : List (Q × Q) :=
  (List.range n).map (fun i => (Q.ofInt i, Q.ofInt i))

/-- Data used in the threshold-monotonicity counterexample. -/
def dataCx : List (Option Q) :=
  [0, 0, 0, 0, 100, 103, 103, 103, 220].map (fun n => some (Q.ofInt n))

/-- Data used in the threshmode dispatch evaluation. -/
def dataFx : List (Option Q) := [0, 1, 2, 10].map (fun n => some (Q.ofInt n))

/-- Threshold 0.6. -/
def qT1 : Q := ⟨6, 10, by norm_num⟩

/-- Threshold 0.7. -/
def qT2 : Q := ⟨7, 10, by norm_num⟩

/-- Number of flagged samples in a `histoclip` run (0 for an aborted run). -/
def flagCount (r : Except String (List Bool × Bool)) : Nat :=
  match r with
  | Except.ok (l, _) => l.count true
  | Except.error _ => 0

/-- Insertion of an integer into a sorted list. -/
def insertZ (x : Int) : List Int → List Int
  | [] => [x]
  | y :: ys => if x ≤ y then x :: y :: ys else y :: insertZ x ys

/-- Insertion sort on integers. -/
def sortZ : List Int → List Int
  | [] => []
  | x :: xs => insertZ x (sortZ xs)

/-- Remove adjacent duplicate integers. -/
def dedupZ : List Int → List Int
  | [] => []
  | [x] => [x]
  | x :: y :: ys => if x = y then dedupZ (y :: ys) else x :: dedupZ (y :: ys)

/-- Model of `np.unique` on integer arrays. -/
def uniqueZ (xs : List Int) : List Int := dedupZ (sortZ xs)

/-- The local variable `t` of `phazer` as it stands at the antenna loop (line
956): `t` is assigned only at line 1158, inside the `not dryrun` branch of the
output loop further down, so here it is still unbound and referencing it raises
`UnboundLocalError`. -/
def phazerLocalT : Option (List String) := none

/-- Lines 946-978 of `sunblocker.py` (`phazer`, `mode == 'antenna'`): iterate
over `np.unique(np.append(antenna1, antenna2))`; for each antenna, log a
message whose format arguments include `t.ANTENNA.getcol('NAME')[antenna]`,
build `passedflags` over `antenna1 != antenna and antenna2 != antenna`, run the
clip builder on it and OR the result into the accumulator.  `histoclipRun`
abstracts the call `histoclip(data, passedflags, gruvcoord, ...)` with all
other arguments fixed. -/
def phazerAntennaMode (histoclipRun : List Bool → Except String (List Bool))
    (antenna1 antenna2 : List Int) (n : Nat) : Except String (List Bool) :=
  let antennas := uniqueZ (antenna1 ++ antenna2)
  antennas.foldlM
    (fun newflags antenna =>
      match phazerLocalT with
      | none =>
        Except.error "UnboundLocalError: local variable t referenced before assignment"
      | some _ =>
        let select := (List.zip antenna1 antenna2).map
          (fun p => decide (p.1 ≠ antenna) && decide (p.2 ≠ antenna))
        (histoclipRun select).map (fun nf => List.zipWith or newflags nf))
    (List.replicate n false)

/-- A Python sequence value as it occurs in `wedge_around_centre`: a list of
coordinate pairs, or a Python 3 `zip` iterator over such pairs. -/
inductive PySeq where
  | pylist : List (Q × Q) → PySeq
  | zipobj : List (Q × Q) → PySeq

/-- Python `+` on sequence values.  Lists concatenate; `zip` objects do not
support `+` in Python 3 and raise `TypeError`. -/
def pyAdd : PySeq → PySeq → Except String PySeq
  | PySeq.pylist a, PySeq.pylist b => Except.ok (PySeq.pylist (a ++ b))
  | _, _ => Except.error "TypeError: unsupported operand type(s) for +: zip and zip"

/-- Python subscription of a sequence value; `zip` objects are not
subscriptable in Python 3. -/
def pyGetItem : PySeq → Nat → Except String (Q × Q)
  | PySeq.pylist a, i => Except.ok (a.getD i (Q.ofInt 0, Q.ofInt 0))
  | PySeq.zipobj _, _ => Except.error "TypeError: zip object is not subscriptable"

/-- Python 3 `zip` of two float arrays: a zip iterator. -/
def pyZip (a b : List Q) : PySeq := PySeq.zipobj (List.zip a b)

/-- `np.linspace lo hi n` (n >= 2 at all uses). -/
def linspaceQ (lo hi : Q) (n : Nat) : List Q :=
  (List.range n).map (fun i => lo.add (((hi.sub lo).mul (Q.ofInt i)).divNat (n - 1)))

/-- The float value of `np.pi`. -/
def piQ : Q := ⟨3141592653589793, 1000000000000000, by norm_num⟩

/-- Lines 88-121 of `sunblocker.py` (`wedge_around_centre`): construct the
wedge polygon around `coord`.  The trigonometric routines are external numpy
calls, modelled as parameters (the outcome does not depend on them).  The
polygon line 119 is `polygon = arc1 + arc2 + [arc1[0]]`, evaluated
left-to-right, where `arc1` and `arc2` are `zip` objects. -/
def wedge_around_centre (sinQ cosQ : Q → Q) (atan2Q : Q → Q → Q) (sqrtFn : Q → Q)
    (coord : Q × Q) (radrange angle : Q) : Except String PySeq :=
  let npoints := 100
  let alphaMin := (atan2Q coord.1 coord.2).sub (((piQ.mul angle).divNat 180).divNat 2)
  let alphaMax := alphaMin.add ((piQ.mul angle).divNat 180)
  let rmin := (sqrtFn ((coord.1.mul coord.1).add (coord.2.mul coord.2))).sub (radrange.divNat 2)
  let rmax := rmin.add radrange
  let a := linspaceQ alphaMin alphaMax npoints
  let s := a.map sinQ
  let c := a.map cosQ
  let arc1 := pyZip (s.map (fun x => rmax.mul x)) (c.map (fun x => rmax.mul x))
  let arc2 := pyZip (s.reverse.map (fun x => rmin.mul x)) (c.reverse.map (fun x => rmin.mul x))
  (pyAdd arc1 arc2).bind (fun s12 =>
    (pyGetItem arc1 0).bind (fun h => pyAdd s12 (PySeq.pylist [h])))

/-- Lines 1342-1361 of `sunblocker.py` (`vampirisms`): the starting rising of
the daylight walk.  With the telescope date set to the observation start,
`esti` is the next rising and `eeti` the next setting; if `esti > eeti` the sun
is currently up and the first daylight period starts at the observation start,
otherwise the walk starts at the next rising. -/
def vampInitEsti (nextRising nextSetting : Q → Q) (eobstart : Q) : Q :=
  let esti := nextRising eobstart
  let eeti := nextSetting eobstart
  if Q.blt eeti esti then eobstart else nextRising eobstart

/-- One flagged-window membership array:
`(etimes >= a) * (b >= etimes)` (both bounds inclusive). -/
def windowFlags (etimes : List Q) (a b : Q) : List Bool :=
  etimes.map (fun tau => Q.ble a tau && Q.ble tau b)

/-- Lines 1372-1432 of `sunblocker.py` (`vampirisms`): the while-loop over
daylight periods.  From a rising `esti`, the next setting `eeti` is computed;
with `nononsoleil` one window `[esti - avantsoleil, eeti + apresoleil]` is
OR-ed into the flags, otherwise the two margin windows are; then the walk
advances to the next rising after `eeti`.  The loop runs while
`esti - avantsoleil < eobsend`.  The fuel bounds the number of iterations;
`none` models a walk that does not finish within the fuel. -/
def vampFlagsLoop (nextRising nextSetting : Q → Q) (etimes : List Q)
    (eobsend avantsoleil apresnuit avantnuit apresoleil : Q) (nononsoleil : Bool) :
    Nat → Q → List Bool → Option (List Bool)
  | 0, _, _ => none
  | fuel + 1, esti, flags =>
    if Q.blt (esti.sub avantsoleil) eobsend then
      let eeti := nextSetting esti
      let newflags :=
        if nononsoleil then
          List.zipWith or flags
            (windowFlags etimes (esti.sub avantsoleil) (eeti.add apresoleil))
        else
          List.zipWith or
            (List.zipWith or flags
              (windowFlags etimes (esti.sub avantsoleil) (esti.add apresnuit)))
            (windowFlags etimes (eeti.sub avantnuit) (eeti.add apresoleil))
      vampFlagsLoop nextRising nextSetting etimes eobsend avantsoleil apresnuit
        avantnuit apresoleil nononsoleil fuel (nextRising eeti) newflags
    else some flags

/-- The daylight periods `(rising, following setting)` walked by
`vampFlagsLoop`, in order. -/
def walkPeriods (nextRising nextSetting : Q → Q) (eobsend avantsoleil : Q) :
    Nat → Q → List (Q × Q)
  | 0, _ => []
  | fuel + 1, esti =>
    if Q.blt (esti.sub avantsoleil) eobsend then
      (esti, nextSetting esti) ::
        walkPeriods nextRising nextSetting eobsend avantsoleil fuel
          (nextRising (nextSetting esti))
    else []

/-- Lines 1342-1397 of `sunblocker.py` (`vampirisms`) assembled: the
pre-inversion per-time-sample flags. -/
def vampirismsFlags (nextRising nextSetting : Q → Q) (etimes : List Q)
    (eobstart eobsend avantsoleil apresnuit avantnuit apresoleil : Q)
    (nononsoleil : Bool) (fuel : Nat) : Option (List Bool) :=
  vampFlagsLoop nextRising nextSetting etimes eobsend avantsoleil apresnuit
    avantnuit apresoleil nononsoleil fuel
    (vampInitEsti nextRising nextSetting eobstart)
    (List.replicate etimes.length false)

/-- Lines 1472-1479 of `sunblocker.py` (`vampirisms`): the optional final
inversion `flags = np.logical_not(flags)`. -/
def vampirismsResult (nextRising nextSetting : Q → Q) (etimes : List Q)
    (eobstart eobsend avantsoleil apresnuit avantnuit apresoleil : Q)
    (nononsoleil flinvert : Bool) (fuel : Nat) : Option (List Bool) :=
  (vampirismsFlags nextRising nextSetting etimes eobstart eobsend avantsoleil
      apresnuit avantnuit apresoleil nononsoleil fuel).map
    (fun fl => if flinvert then fl.map not else fl)

/-- The successor function, a concrete rise/set schedule used in witnesses. -/
def succQ : Q → Q := fun tau => tau.add (Q.ofInt 1)

/-- Time samples used in the solar-walk witness. -/
def demoTimes : List Q := [⟨1, 2, by norm_num⟩, ⟨3, 2, by norm_num⟩, Q.ofInt 3]

/-- External I/O actions performed by the flag-application code of `phazer`
(lines 1133-1180) and `vampirisms` (lines 1286-1289, 1482-1486). -/
inductive Eff where
  | openRO : String → Eff
  | openRW : String → Eff
  | copyTable : String → String → Eff
  | readFlagCol : String → Eff
  | writeFlagCol : String → Eff
  | logMsg : String → Eff
deriving DecidableEq

/-- Whether an effect opens a data set for writing, copies one, or writes the
FLAG column. -/
def Eff.isMutation : Eff → Bool
  | Eff.openRW _ => true
  | Eff.copyTable _ _ => true
  | Eff.writeFlagCol _ => true
  | _ => false

/-- Lines 1144-1179 of `sunblocker.py` (`phazer`), body of the output loop for
one (inset, outset) pair: open or copy-and-open the output set when not a dry
run, then read, update and write its FLAG column when not a dry run; in a dry
run only log. -/
def applyStep (insetI outsetI : String) (tableExists : String → Bool)
    (dryrun : Bool) : List Eff :=
  (if tableExists outsetI then
    (if !dryrun then [Eff.openRW outsetI]
     else [Eff.logMsg "it's a simulation (dry run)"])
   else
    (if !dryrun then [Eff.openRO insetI, Eff.copyTable insetI outsetI, Eff.openRW outsetI]
     else [Eff.logMsg "it's a simulation (dry run)"])) ++
  (if !dryrun then [Eff.readFlagCol outsetI]
   else [Eff.logMsg "it's a simulation (dry run)"]) ++
  (if !dryrun then [Eff.writeFlagCol outsetI]
   else [Eff.logMsg "it's a simulation (dry run)."])

/-- The output loop `for i in range(len(outset))`. -/
def applyLoop : List String → List String → (String → Bool) → Bool → List Eff
  | i :: is, o :: os, tableExists, dryrun =>
    applyStep i o tableExists dryrun ++ applyLoop is os tableExists dryrun
  | _, _, _, _ => []

/-- Lines 1133-1180 of `sunblocker.py` (`phazer`): normalise `outset` (`None`
means flag the input sets; a list must match the input list in length, else the
run aborts before any I/O side effect), then run the output loop. -/
def phazerApplyFlags (inset : List String) (outset : Option (List String))
    (tableExists : String → Bool) (dryrun : Bool) : Except String (List Eff) :=
  match outset with
  | none => Except.ok (applyLoop inset inset tableExists dryrun)
  | some o =>
    if o.length = inset.length then Except.ok (applyLoop inset o tableExists dryrun)
    else Except.error "number of outsets is not equal to number of insets, cowardly stopping application of flags."

/-- Lines 1286-1289 and 1482-1486 of `sunblocker.py` (`vampirisms`): the input
set is opened read-only on a dry run and read-write otherwise, and the FLAG
column is read and written only when not a dry run. -/
def vampirismsTrace (insetName : String) (dryrun : Bool) : List Eff :=
  (if dryrun then [Eff.openRO insetName] else [Eff.openRW insetName]) ++
  (if !dryrun then [Eff.readFlagCol insetName, Eff.writeFlagCol insetName]
   else [Eff.logMsg "Because of dry run not applying flags to data."])

/-- One row of the measurement set as consumed by `readdata` (lines 363-515):
antenna pair, field id, and per-channel raw data and flags for the first and
last polarisation (the only polarisations the code reads).  The complex sample
is represented by one fraction; `readdata` never inspects its value on the
modelled path. -/
structure MSRow where
  a1 : Int
  a2 : Int
  fieldId : Int
  vals : List (Q × Q)
  fl : List (Bool × Bool)
deriving Inhabited

/-- Lines 427-455 of `sunblocker.py` (`readdata`): Stokes combination of one
channel.  `stflags` counts the available polarisations; division `0/0` yields
NaN under `np.errstate`; the combined flag is `stflags < 1` for Stokes I and
`stflags < 2` for Stokes Q. -/
def stokesChan (pol : String) (v : Q × Q) (f : Bool × Bool) : Option Q × Bool :=
  let b0 : Int := if f.1 then 0 else 1
  let bi : Int := if f.2 then 0 else 1
  let stflags := b0 + bi
  let numer :=
    if pol = "i" then (v.1.mul (Q.ofInt b0)).add (v.2.mul (Q.ofInt bi))
    else (v.1.mul (Q.ofInt b0)).sub (v.2.mul (Q.ofInt bi))
  let value : Option Q := if stflags = 0 then none else some (numer.divNat stflags.toNat)
  let flag := if pol = "i" then decide (stflags < 1) else decide (stflags < 2)
  (value, flag)

/-- Lines 464-475: rows whose field is not selected are fully flagged. -/
def applyFields (fields : Option (List Int)) (rows : List MSRow)
    (flags : List (List Bool)) : List (List Bool) :=
  match fields with
  | none => flags
  | some fs => (List.zip rows flags).map
      (fun p => if fs.contains p.1.fieldId then p.2 else p.2.map (fun _ => true))

/-- Lines 483-484: `flags[antenna1 == antenna2] = True`, unconditionally. -/
def applyAutocorr (rows : List MSRow) (flags : List (List Bool)) : List (List Bool) :=
  (List.zip rows flags).map
    (fun p => if p.1.a1 = p.1.a2 then p.2.map (fun _ => true) else p.2)

/-- Lines 486-489: `flags[:, np.logical_not(channels)] = True`. -/
def applyChannels (channels : Option (List Bool)) (flags : List (List Bool)) :
    List (List Bool) :=
  match channels with
  | none => flags
  | some ch => flags.map (fun row => List.zipWith (fun flg keep => flg || !keep) row ch)

/-- Lines 491-503: rows whose antenna pair is not in the baseline list (in
either order) are fully flagged. -/
def applyBaselines (baselines : Option (List (Int × Int))) (rows : List MSRow)
    (flags : List (List Bool)) : List (List Bool) :=
  match baselines with
  | none => flags
  | some bl => (List.zip rows flags).map
      (fun p =>
        if bl.any (fun b =>
            (decide (b.1 = p.1.a1) && decide (b.2 = p.1.a2)) ||
            (decide (b.2 = p.1.a1) && decide (b.1 = p.1.a2)))
        then p.2 else p.2.map (fun _ => true))

/-- Lines 505-507: `data[flags] = np.nan`. -/
def nanApply (data : List (List (Option Q))) (flags : List (List Bool)) :
    List (List (Option Q)) :=
  List.zipWith (fun drow frow => List.zipWith (fun d flg => if flg then none else d) drow frow)
    data flags

/-- The Stokes combination applied to every row and channel. -/
def readCombined (rows : List MSRow) (pol : String) : List (List (Option Q × Bool)) :=
  rows.map (fun r => (List.zip r.vals r.fl).map (fun p => stokesChan pol p.1 p.2))

/-- The `readdata` method (lines 363-515 of `sunblocker.py`), from the Stokes
combination on: combined data and flags, then field selection, autocorrelation
flagging, channel selection, baseline selection, and finally `data[flags] =
np.nan`.  An unknown polarisation aborts (line 455). -/
def readdataModel (rows : List MSRow) (pol : String) (fields : Option (List Int))
    (channels : Option (List Bool)) (baselines : Option (List (Int × Int))) :
    Except String (List (List (Option Q)) × List (List Bool)) :=
  if pol = "i" ∨ pol = "q" then
    let combined := readCombined rows pol
    let data0 := combined.map (List.map Prod.fst)
    let flags0 := combined.map (List.map Prod.snd)
    let flags4 :=
      applyBaselines baselines rows
        (applyChannels channels (applyAutocorr rows (applyFields fields rows flags0)))
    Except.ok (nanApply data0 flags4, flags4)
  else Except.error "Polarisation must be i or q."

/-- Line 829 of `sunblocker.py` (`phazer`): `collaflags = np.all(flags, axis=1)`. -/
def collaflagsOf (flags : List (List Bool)) : List Bool :=
  flags.map (fun row => row.all (fun b => b))

/-- Lines 830-851 of `sunblocker.py` (`phazer`): membership of each sample in
the grid cell `(uu, vv)` (`active_visibs`), including the uv-range restriction
and the subsequent `active_visibs[collaflags] = False`. -/
def activeVisibs (u v : List Q) (collaflags : List Bool) (uu vv duv uvmin : Q)
    (uvmax : Option Q) : List Bool :=
  let base := List.zipWith
    (fun ui vi =>
      Q.blt uu ui && Q.ble ui (uu.add duv) && Q.blt vv vi && Q.ble vi (vv.add duv) &&
      (match uvmax with
       | none => Q.blt (uvmin.mul uvmin) ((ui.mul ui).add (vi.mul vi))
       | some m =>
         Q.blt ((ui.mul ui).add (vi.mul vi)) (m.mul m) &&
         Q.blt (uvmin.mul uvmin) ((ui.mul ui).add (vi.mul vi)))) u v
  List.zipWith (fun a cf => a && !cf) base collaflags

theorem Q.den_cast_pos (a : Q) : (0 : ℚ) < (a.den : ℚ) := by
  exact_mod_cast a.dpos

theorem Q.den_cast_ne_zero (a : Q) : ((a.den : ℚ)) ≠ 0 :=
  ne_of_gt a.den_cast_pos

theorem Q.le_iff (a b : Q) : Q.le a b ↔ a.toRat ≤ b.toRat := by
  unfold Q.le Q.toRat
  rw [div_le_div_iff₀ a.den_cast_pos b.den_cast_pos]
  constructor
  · intro h; exact_mod_cast h
  · intro h; exact_mod_cast h

theorem Q.ble_iff (a b : Q) : Q.ble a b = true ↔ a.toRat ≤ b.toRat := by
  unfold Q.ble
  rw [decide_eq_true_eq, Q.le_iff]

theorem Q.toRat_ofInt (n : Int) : (Q.ofInt n).toRat = (n : ℚ) := by
  unfold Q.ofInt Q.toRat; norm_num

theorem Q.toRat_add (a b : Q) : (a.add b).toRat = a.toRat + b.toRat := by
  unfold Q.add Q.toRat
  push_cast
  rw [div_add_div _ _ a.den_cast_ne_zero b.den_cast_ne_zero]
  ring_nf

theorem Q.toRat_mul (a b : Q) : (a.mul b).toRat = a.toRat * b.toRat := by
  unfold Q.mul Q.toRat
  push_cast
  rw [div_mul_div_comm]

/-- Transitivity of the boolean comparison along a rational inequality. -/
theorem Q.ble_trans_of_le (c1 c2 x : Q) (h12 : c1.toRat ≤ c2.toRat)
    (h : Q.ble c2 x = true) : Q.ble c1 x = true := by
  rw [Q.ble_iff] at h ⊢
  exact le_trans h12 h

/-- The clip cut `location + threshold*scale` grows with the threshold when the
scale is nonnegative. -/
theorem cut_mono (a s t1 t2 : Q) (hs : Q.le (Q.ofInt 0) s) (ht : Q.le t1 t2) :
    (a.add (t1.mul s)).toRat ≤ (a.add (t2.mul s)).toRat := by
  rw [Q.toRat_add, Q.toRat_add, Q.toRat_mul, Q.toRat_mul]
  have hs2 : 0 ≤ s.toRat := by
    have := (Q.le_iff (Q.ofInt 0) s).mp hs
    rwa [Q.toRat_ofInt] at this
  have ht2 : t1.toRat ≤ t2.toRat := (Q.le_iff t1 t2).mp ht
  nlinarith

/-- Counting `true` is monotone along pointwise implication. -/
theorem count_true_mono {xs ys : List Bool}
    (h : List.Forall₂ (fun x y => x = true → y = true) xs ys) :
    xs.count true ≤ ys.count true := by
  induction h with
  | nil => simp
  | cons hxy hrest ih =>
    rename_i x y xs2 ys2
    cases x <;> cases y <;> simp_all [List.count_cons]
    omega

/-- Pointwise implication between two maps of the same list. -/
theorem forall2_map_self {α : Type} {f g : α → Bool}
    (h : ∀ x, f x = true → g x = true) (l : List α) :
    List.Forall₂ (fun x y => x = true → y = true) (l.map f) (l.map g) := by
  induction l with
  | nil => simp
  | cons a l2 ih => exact List.Forall₂.cons (h a) ih

/-- Pointwise implication survives and-ing with the same unflag array. -/
theorem forall2_zip_unflag {xs ys : List Bool}
    (h : List.Forall₂ (fun x y => x = true → y = true) xs ys) :
    ∀ u : List Bool,
      List.Forall₂ (fun x y => x = true → y = true)
        (List.zipWith (fun s nu => s && !nu) xs u)
        (List.zipWith (fun s nu => s && !nu) ys u) := by
  induction h with
  | nil => intro u; simp
  | cons hxy hrest ih =>
    intro u
    cases u with
    | nil => simp
    | cons b u2 =>
      rename_i x y xs2 ys2
      refine List.Forall₂.cons ?_ (ih u2)
      intro hx
      cases b <;> simp_all

/-- C1: for every input data array, location/scale pair and threshold, the clip
step of `histoclip` (lines 289-293) flags exactly the samples with
`value >= location + threshold*scale` (NaN values are never flagged, and no
sample is flagged for a negative offset since the test is one-sided); when an
unflag-override array is supplied, the result is additionally and-ed with its
negation, so an unflagged-override sample is never flagged regardless of its
value. -/
theorem histoclip_clip_mask_pointwise (av : List (Option Q)) (a s t : Q)
    (u : List Bool) (i : Nat) (hi : i < av.length) (hu : u.length = av.length) :
    (clipSelect av (some a) (some s) t none).getD i false =
      (av.getD i none).elim false (fun x => Q.ble (a.add (t.mul s)) x) ∧
    (clipSelect av (some a) (some s) t (some u)).getD i false =
      ((av.getD i none).elim false (fun x => Q.ble (a.add (t.mul s)) x) &&
        !(u.getD i false)) := by
  have hmap : ∀ j : Nat, j < av.length →
      (av.map (fun v => nanGeO v (some (a.add (t.mul s))))).getD j false =
        (av.getD j none).elim false (fun x => Q.ble (a.add (t.mul s)) x) := by
    intro j hj
    rw [List.getD_eq_getElem _ _ (by simpa using hj), List.getElem_map,
      List.getD_eq_getElem _ _ hj]
    cases av[j] <;> rfl
  constructor
  · exact hmap i hi
  · have hzlen : i < (List.zipWith (fun s2 nu => s2 && !nu)
        (av.map (fun v => nanGeO v (some (a.add (t.mul s))))) u).length := by
      rw [List.length_zipWith, List.length_map, hu]
      omega
    unfold clipSelect
    rw [List.getD_eq_getElem _ _ hzlen, List.getElem_zipWith, List.getElem_map,
      List.getD_eq_getElem _ _ hi, List.getD_eq_getElem _ _ (by omega : i < u.length)]
    cases hav : av[i] <;> simp [nanGeO, hav]

/-- Witness for `histoclip_clip_mask_pointwise` at a concrete input. -/
theorem histoclip_clip_mask_pointwise_witness :
    (0 < ([some (Q.ofInt 5), none] : List (Option Q)).length) ∧
    ([true, false].length = ([some (Q.ofInt 5), none] : List (Option Q)).length) ∧
    ((clipSelect [some (Q.ofInt 5), none] (some (Q.ofInt 0)) (some (Q.ofInt 1))
        (Q.ofInt 2) none).getD 0 false =
      (([some (Q.ofInt 5), none] : List (Option Q)).getD 0 none).elim false
        (fun x => Q.ble ((Q.ofInt 0).add ((Q.ofInt 2).mul (Q.ofInt 1))) x) ∧
    (clipSelect [some (Q.ofInt 5), none] (some (Q.ofInt 0)) (some (Q.ofInt 1))
        (Q.ofInt 2) (some [true, false])).getD 0 false =
      ((([some (Q.ofInt 5), none] : List (Option Q)).getD 0 none).elim false
        (fun x => Q.ble ((Q.ofInt 0).add ((Q.ofInt 2).mul (Q.ofInt 1))) x) &&
        !(([true, false] : List Bool).getD 0 false))) :=
  ⟨by decide, by decide,
    histoclip_clip_mask_pointwise [some (Q.ofInt 5), none] (Q.ofInt 0) (Q.ofInt 1)
      (Q.ofInt 2) [true, false] 0 (by decide) (by decide)⟩

/-- C2: the estimator dispatch of `histoclip` (lines 276-287) has no branch for
the documented policy string `fixed` (it tests `abs` instead), so a call with
`threshmode='fixed'` on sufficient data raises `UnboundLocalError` at line 291
instead of succeeding with location 0 and scale 1; the string `abs` is the one
that yields location 0 and scale 1. -/
theorem histoclip_threshmode_fixed_unbound :
    histoclipM noFit dataFx (List.replicate 4 false) (diagCoords 4) none "fixed"
        (Q.ofInt 5) false =
      Except.error "UnboundLocalError: local variable std referenced before assignment" ∧
    histoclipM noFit dataFx (List.replicate 4 false) (diagCoords 4) none "abs"
        (Q.ofInt 5) false =
      Except.ok ([false, false, false, true], false) := by
  decide

/-- C3: whenever fewer than 3 finite per-cell grid values remain after
discarding ignored entries, `histoclip` returns an all-false mask of the shape
of the input data (lines 210-216) without raising and without rendering. -/
theorem histoclip_insufficient_data_no_flags (fit : FitFun) (data : List (Option Q))
    (mask : List Bool) (gruvcoord : List (Q × Q)) (unflags : Option (List Bool))
    (threshmode : String) (threshold : Q) (ax : Bool)
    (h : (finiteVals (uvgriddedOf data mask gruvcoord)).length < 3) :
    histoclipM fit data mask gruvcoord unflags threshmode threshold ax =
      Except.ok (List.replicate data.length false, false) := by
  unfold histoclipM
  simp [h]

/-- Witness for `histoclip_insufficient_data_no_flags` at a concrete input. -/
theorem histoclip_insufficient_data_no_flags_witness :
    ((finiteVals (uvgriddedOf [some (Q.ofInt 1), some (Q.ofInt 2)] [false, false]
        (diagCoords 2))).length < 3) ∧
    histoclipM noFit [some (Q.ofInt 1), some (Q.ofInt 2)] [false, false]
        (diagCoords 2) none "mad" (Q.ofInt 5) true =
      Except.ok (List.replicate
        ([some (Q.ofInt 1), some (Q.ofInt 2)] : List (Option Q)).length false, false) :=
  ⟨by decide,
    histoclip_insufficient_data_no_flags noFit [some (Q.ofInt 1), some (Q.ofInt 2)]
      [false, false] (diagCoords 2) none "mad" (Q.ofInt 5) true (by decide)⟩

/-- C5: the mask returned by `histoclip` is a function of the data, ignore
mask, grid coordinates, unflag override, policy and threshold only: supplying a
diagnostic axis never changes the returned mask, and when no axis is supplied
the plot block (line 296) does not run. -/
theorem histoclip_ax_no_influence (fit : FitFun) (data : List (Option Q))
    (mask : List Bool) (gruvcoord : List (Q × Q)) (unflags : Option (List Bool))
    (threshmode : String) (threshold : Q) :
    (histoclipM fit data mask gruvcoord unflags threshmode threshold true).map Prod.fst =
      (histoclipM fit data mask gruvcoord unflags threshmode threshold false).map Prod.fst ∧
    (∀ r, histoclipM fit data mask gruvcoord unflags threshmode threshold false =
      Except.ok r → r.2 = false) := by
  constructor
  · by_cases h3 : (finiteVals (uvgriddedOf data mask gruvcoord)).length < 3
    · simp [histoclipM, h3]
    · by_cases hfit : threshmode = "fit"
      · simp [histoclipM, h3, hfit, Except.map]
      · by_cases h1 : threshmode = "abs"
        · simp [histoclipM, h3, h1, hfit, Except.map]
        · by_cases h2 : threshmode = "std"
          · simp [histoclipM, h3, h1, h2, hfit, Except.map]
          · by_cases hm : threshmode = "mad"
            · simp [histoclipM, h3, h1, h2, hm, hfit, Except.map]
            · simp [histoclipM, h3, h1, h2, hm, hfit, Except.map]
  · intro r hr
    by_cases h3 : (finiteVals (uvgriddedOf data mask gruvcoord)).length < 3
    · simp [histoclipM, h3] at hr
      simp [← hr]
    · by_cases hfit : threshmode = "fit"
      · simp [histoclipM, h3, hfit] at hr
        simp [← hr]
      · by_cases h1 : threshmode = "abs"
        · simp [histoclipM, h3, h1, hfit] at hr
          simp [← hr]
        · by_cases h2 : threshmode = "std"
          · simp [histoclipM, h3, h1, h2, hfit] at hr
            simp [← hr]
          · by_cases hm : threshmode = "mad"
            · simp [histoclipM, h3, h1, h2, hm, hfit] at hr
              simp [← hr]
            · simp [histoclipM, h3, h1, h2, hm, hfit] at hr

/-- Witness for `histoclip_ax_no_influence` at a concrete input. -/
theorem histoclip_ax_no_influence_witness :
    ((histoclipM noFit [] [] [] none "std" (Q.ofInt 5) true).map Prod.fst =
      (histoclipM noFit [] [] [] none "std" (Q.ofInt 5) false).map Prod.fst) ∧
    (((List.replicate (0 : Nat) false, false) : List Bool × Bool).2 = false) :=
  ⟨(histoclip_ax_no_influence noFit [] [] [] none "std" (Q.ofInt 5)).1,
    (histoclip_ax_no_influence noFit [] [] [] none "std" (Q.ofInt 5)).2
      (List.replicate 0 false, false) (by decide)⟩

/-- C6 (amended): what survives of the monotonicity claim is the final cut
(lines 289-293): for a fixed location and a fixed nonnegative scale, raising
the threshold never increases the number of flagged samples, with or without an
unflag override.  The end-to-end `histoclip` count is not monotone in the
threshold, because the threshold also drives the sigma-clip that produces the
location and scale. -/
theorem clip_count_antitone_in_threshold (av : List (Option Q)) (a s : Q)
    (unflags : Option (List Bool)) (t1 t2 : Q)
    (hs : Q.le (Q.ofInt 0) s) (ht : Q.le t1 t2) :
    (clipSelect av (some a) (some s) t2 unflags).count true ≤
      (clipSelect av (some a) (some s) t1 unflags).count true := by
  have hpoint : ∀ v : Option Q,
      nanGeO v (some (a.add (t2.mul s))) = true →
      nanGeO v (some (a.add (t1.mul s))) = true := by
    intro v hv
    cases v with
    | none => simp [nanGeO] at hv
    | some x =>
      simp only [nanGeO] at hv ⊢
      exact Q.ble_trans_of_le _ _ _ (cut_mono a s t1 t2 hs ht) hv
  unfold clipSelect
  cases unflags with
  | none => exact count_true_mono (forall2_map_self hpoint av)
  | some u => exact count_true_mono (forall2_zip_unflag (forall2_map_self hpoint av) u)

/-- Witness for `clip_count_antitone_in_threshold` at a concrete input. -/
theorem clip_count_antitone_in_threshold_witness :
    Q.le (Q.ofInt 0) (Q.ofInt 1) ∧ Q.le (Q.ofInt 1) (Q.ofInt 2) ∧
    (clipSelect [some (Q.ofInt 5)] (some (Q.ofInt 0)) (some (Q.ofInt 1))
        (Q.ofInt 2) none).count true ≤
      (clipSelect [some (Q.ofInt 5)] (some (Q.ofInt 0)) (some (Q.ofInt 1))
        (Q.ofInt 1) none).count true :=
  ⟨by decide, by decide,
    clip_count_antitone_in_threshold [some (Q.ofInt 5)] (Q.ofInt 0) (Q.ofInt 1)
      none (Q.ofInt 1) (Q.ofInt 2) (by decide) (by decide)⟩

/-- C6 (counterexample): the number of samples flagged by `histoclip` is not
non-increasing in the threshold.  With policy `std`, all-false ignore mask, one
sample per occupied grid cell and data `[0,0,0,0,100,103,103,103,220]`, the
threshold 0.6 clips the grid down to the three 103s (location 103, scale 0, 4
flags), while the larger threshold 0.7 walks the sigma-clip down to the four 0s
(location 0, scale 0, 9 flags): raising the threshold raises the count from 4
to 9. -/
theorem histoclip_threshold_monotonicity_fails :
    Q.le qT1 qT2 ∧
    flagCount (histoclipM noFit dataCx (List.replicate 9 false) (diagCoords 9)
      none "std" qT1 false) = 4 ∧
    flagCount (histoclipM noFit dataCx (List.replicate 9 false) (diagCoords 9)
      none "std" qT2 false) = 9 ∧
    ¬ (flagCount (histoclipM noFit dataCx (List.replicate 9 false) (diagCoords 9)
        none "std" qT2 false) ≤
      flagCount (histoclipM noFit dataCx (List.replicate 9 false) (diagCoords 9)
        none "std" qT1 false)) := by
  decide

/-- C4 (code evaluation): the per-antenna dispatch of `phazer` never completes:
its very first iteration evaluates the log-format argument
`t.ANTENNA.getcol('NAME')[antenna]` (line 956), where `t` is a local of
`phazer` first assigned only at line 1158, so the dispatch aborts with
`UnboundLocalError` for every behaviour of the clip builder and every dataset
with at least one antenna; no per-antenna mask is ever built or OR-ed. -/
theorem phazer_antenna_mode_aborts
    (histoclipRun : List Bool → Except String (List Bool)) (n : Nat) :
    phazerAntennaMode histoclipRun [0] [1] n =
      Except.error "UnboundLocalError: local variable t referenced before assignment" := by
  rfl

/-- C7 (code evaluation): `wedge_around_centre` never returns a wedge: line 119
concatenates the two arcs with `+`, but `arc1` and `arc2` are Python 3 `zip`
objects, so every call raises `TypeError` regardless of the coordinates, radial
range, angle, and of the trigonometric routines; no containment test is ever
reached. -/
theorem wedge_around_centre_raises (sinQ cosQ : Q → Q) (atan2Q : Q → Q → Q)
    (sqrtFn : Q → Q) (coord : Q × Q) (radrange angle : Q) :
    wedge_around_centre sinQ cosQ atan2Q sqrtFn coord radrange angle =
      Except.error "TypeError: unsupported operand type(s) for +: zip and zip" := by
  rfl

/-- `getD` distributes over the boolean OR of two equal-length arrays. -/
theorem zipWith_or_getD : ∀ (a b : List Bool) (i : Nat), a.length = b.length →
    (List.zipWith or a b).getD i false = (a.getD i false || b.getD i false)
  | [], [], _, _ => by simp
  | [], _ :: _, _, h => by simp at h
  | _ :: _, [], _, h => by simp at h
  | _ :: _, _ :: _, 0, _ => by simp
  | x :: xs, y :: ys, i + 1, h => by
    simpa using zipWith_or_getD xs ys i (by simpa using h)

/-- The membership array of one flagged window, read at index `i`. -/
theorem windowFlags_getD (etimes : List Q) (a b : Q) (i : Nat)
    (hi : i < etimes.length) :
    (windowFlags etimes a b).getD i false =
      (Q.ble a (etimes.getD i (Q.ofInt 0)) && Q.ble (etimes.getD i (Q.ofInt 0)) b) := by
  unfold windowFlags
  rw [List.getD_eq_getElem _ _ (by simpa using hi), List.getElem_map,
    List.getD_eq_getElem _ _ hi]

/-- The daylight while-loop (full-daytime branch) computes, at every time
sample, the OR of the incoming flags with the union of the walked windows. -/
theorem vampLoop_spec (nr ns : Q → Q) (etimes : List Q)
    (eobsend avant apresn avantn apres : Q) :
    ∀ (fuel : Nat) (esti : Q) (flags0 flags : List Bool),
      flags0.length = etimes.length →
      vampFlagsLoop nr ns etimes eobsend avant apresn avantn apres true fuel
        esti flags0 = some flags →
      flags.length = etimes.length ∧
      ∀ i, i < etimes.length →
        flags.getD i false =
          (flags0.getD i false ||
            (walkPeriods nr ns eobsend avant fuel esti).any
              (fun p => Q.ble (p.1.sub avant) (etimes.getD i (Q.ofInt 0)) &&
                Q.ble (etimes.getD i (Q.ofInt 0)) (p.2.add apres))) := by
  intro fuel
  induction fuel with
  | zero =>
    intro esti flags0 flags h0 hrun
    simp [vampFlagsLoop] at hrun
  | succ m ih =>
    intro esti flags0 flags h0 hrun
    by_cases hg : Q.blt (esti.sub avant) eobsend = true
    · rw [vampFlagsLoop, if_pos hg] at hrun
      simp only [if_pos rfl] at hrun
      have hlen : (List.zipWith or flags0
          (windowFlags etimes (esti.sub avant) ((ns esti).add apres))).length =
          etimes.length := by
        simp [windowFlags, h0]
      obtain ⟨hl, hspec⟩ := ih (nr (ns esti)) _ flags hlen hrun
      refine ⟨hl, ?_⟩
      intro i hilt
      rw [hspec i hilt,
        zipWith_or_getD _ _ i (by simpa [windowFlags] using h0),
        windowFlags_getD etimes _ _ i hilt]
      rw [walkPeriods, if_pos hg]
      simp [Bool.or_assoc]
    · rw [vampFlagsLoop, if_neg hg] at hrun
      obtain rfl : flags0 = flags := by simpa using hrun
      refine ⟨h0, ?_⟩
      intro i hilt
      rw [walkPeriods, if_neg hg]
      simp

/-- C8: in `vampirisms` with `nononsoleil` and before any inversion, a time
sample is flagged iff it lies inclusively inside
`[esti - avantsoleil, eeti + apresoleil]` for some walked daylight period from
rising `esti` to next setting `eeti`, the union being accumulated over all
walked periods; and when the sun is already above the horizon at the
observation start (the next rising comes after the next setting), the first
daylight period begins at the observation start instant. -/
theorem vampirisms_nononsoleil_window_union (nr ns : Q → Q) (etimes : List Q)
    (eobstart eobsend avant apresn avantn apres : Q) (fuel : Nat)
    (flags : List Bool) (i : Nat) (hi : i < etimes.length)
    (hrun : vampirismsFlags nr ns etimes eobstart eobsend avant apresn avantn
      apres true fuel = some flags) :
    (flags.getD i false = true ↔
      ∃ p ∈ walkPeriods nr ns eobsend avant fuel (vampInitEsti nr ns eobstart),
        Q.le (p.1.sub avant) (etimes.getD i (Q.ofInt 0)) ∧
        Q.le (etimes.getD i (Q.ofInt 0)) (p.2.add apres)) ∧
    (Q.blt (ns eobstart) (nr eobstart) = true →
      vampInitEsti nr ns eobstart = eobstart) := by
  constructor
  · obtain ⟨hl, hspec⟩ := vampLoop_spec nr ns etimes eobsend avant apresn avantn
      apres fuel (vampInitEsti nr ns eobstart) (List.replicate etimes.length false)
      flags (by simp) hrun
    rw [hspec i hi]
    have hrep : (List.replicate etimes.length false).getD i false = false := by
      rcases Nat.lt_or_ge i etimes.length with h | h
      · rw [List.getD_eq_getElem _ _ (by simpa using h)]
        simp
      · rw [List.getD_eq_default]
        simpa using h
    rw [hrep]
    simp only [Bool.false_or, List.any_eq_true, Bool.and_eq_true]
    unfold Q.ble
    simp
  · intro h
    simp [vampInitEsti, h]

/-- Witness for `vampirisms_nononsoleil_window_union` at a concrete schedule
(sunrise at 1, sunset at 2, observation spanning [0, 2], zero margins, time
samples at 1/2, 3/2 and 3). -/
theorem vampirisms_nononsoleil_window_union_witness :
    (1 < demoTimes.length) ∧
    (vampirismsFlags succQ succQ demoTimes (Q.ofInt 0) (Q.ofInt 2) (Q.ofInt 0)
      (Q.ofInt 0) (Q.ofInt 0) (Q.ofInt 0) true 5 = some [false, true, false]) ∧
    ((([false, true, false] : List Bool).getD 1 false = true ↔
      ∃ p ∈ walkPeriods succQ succQ (Q.ofInt 2) (Q.ofInt 0) 5
          (vampInitEsti succQ succQ (Q.ofInt 0)),
        Q.le (p.1.sub (Q.ofInt 0)) (demoTimes.getD 1 (Q.ofInt 0)) ∧
        Q.le (demoTimes.getD 1 (Q.ofInt 0)) (p.2.add (Q.ofInt 0))) ∧
      (Q.blt (succQ (Q.ofInt 0)) (succQ (Q.ofInt 0)) = true →
        vampInitEsti succQ succQ (Q.ofInt 0) = Q.ofInt 0)) :=
  ⟨by decide, by decide,
    vampirisms_nononsoleil_window_union succQ succQ demoTimes (Q.ofInt 0)
      (Q.ofInt 2) (Q.ofInt 0) (Q.ofInt 0) (Q.ofInt 0) (Q.ofInt 0) 5
      [false, true, false] 1 (by decide) (by decide)⟩

/-- In a dry run, one pass of the output loop of `phazer` only logs. -/
theorem applyStep_dryrun_safe (i o : String) (tableExists : String → Bool) :
    (applyStep i o tableExists true).all (fun e => !e.isMutation) = true := by
  by_cases hex : tableExists o = true <;> simp [applyStep, hex, Eff.isMutation]

/-- In a dry run, the output loop of `phazer` produces only log messages. -/
theorem applyLoop_dryrun_safe : ∀ (ins outs : List String) (tableExists : String → Bool),
    (applyLoop ins outs tableExists true).all (fun e => !e.isMutation) = true
  | [], outs, _ => by cases outs <;> rfl
  | _ :: _, [], _ => rfl
  | i :: ins, o :: outs, tableExists => by
    have ih := applyLoop_dryrun_safe ins outs tableExists
    have hs := applyStep_dryrun_safe i o tableExists
    calc (applyLoop (i :: ins) (o :: outs) tableExists true).all (fun e => !e.isMutation)
        = ((applyStep i o tableExists true).all (fun e => !e.isMutation) &&
            (applyLoop ins outs tableExists true).all (fun e => !e.isMutation)) := by
          rw [applyLoop, List.all_append]
      _ = true := by rw [ih, hs]; rfl

/-- C9: with `dryrun = True` (the default), neither `phazer` nor `vampirisms`
opens any data set for writing, copies an output set, or writes the FLAG
column: every mutation of the flag-application code is guarded by
`if not dryrun`, so a default call only reads and logs. -/
theorem dryrun_writes_nothing (inset : List String) (outset : Option (List String))
    (tableExists : String → Bool) (insetName : String) (effs : List Eff)
    (h : phazerApplyFlags inset outset tableExists true = Except.ok effs) :
    effs.all (fun e => !e.isMutation) = true ∧
    (vampirismsTrace insetName true).all (fun e => !e.isMutation) = true := by
  refine ⟨?_, by simp [vampirismsTrace, Eff.isMutation]⟩
  cases outset with
  | none =>
    simp only [phazerApplyFlags, Except.ok.injEq] at h
    rw [← h]
    exact applyLoop_dryrun_safe inset inset tableExists
  | some o =>
    by_cases hlen : o.length = inset.length
    · simp only [phazerApplyFlags, if_pos hlen, Except.ok.injEq] at h
      rw [← h]
      exact applyLoop_dryrun_safe inset o tableExists
    · simp [phazerApplyFlags, hlen] at h

/-- Witness for `dryrun_writes_nothing` at a concrete input. -/
theorem dryrun_writes_nothing_witness :
    (phazerApplyFlags ["a.ms"] (some ["b.ms"]) (fun _ => false) true =
      Except.ok (applyLoop ["a.ms"] ["b.ms"] (fun _ => false) true)) ∧
    ((applyLoop ["a.ms"] ["b.ms"] (fun _ => false) true).all
      (fun e => !e.isMutation) = true ∧
    (vampirismsTrace "a.ms" true).all (fun e => !e.isMutation) = true) :=
  ⟨by decide,
    dryrun_writes_nothing ["a.ms"] (some ["b.ms"]) (fun _ => false) "a.ms"
      (applyLoop ["a.ms"] ["b.ms"] (fun _ => false) true) (by decide)⟩

/-- A row rewritten to the constant `true` passes `np.all`. -/
theorem all_map_const_true {α : Type} (l : List α) :
    (l.map (fun _ => true)).all (fun b => b) = true := by
  simp

/-- Channel selection only adds flags: an all-true row stays all-true. -/
theorem all_true_zipWith_or_not {row : List Bool} (ch : List Bool)
    (h : row.all (fun b => b) = true) :
    (List.zipWith (fun flg keep => flg || !keep) row ch).all (fun b => b) = true := by
  induction row generalizing ch with
  | nil => simp
  | cons a l ih =>
    cases ch with
    | nil => simp
    | cons c cs =>
      simp only [List.all_cons, Bool.and_eq_true] at h
      simp [List.zipWith, h.1, ih cs h.2]

/-- `data[flags] = np.nan` makes every entry of an all-flagged row NaN. -/
theorem nan_of_all_true_flags (drow : List (Option Q)) (frow : List Bool)
    (h : frow.all (fun b => b) = true) :
    (List.zipWith (fun d flg => if flg then none else d) drow frow).all
      (fun x : Option Q => x.isNone) = true := by
  induction drow generalizing frow with
  | nil => simp
  | cons d ds ih =>
    cases frow with
    | nil => simp
    | cons f fs =>
      simp only [List.all_cons, Bool.and_eq_true] at h
      simp [List.zipWith, h.1, ih fs h.2]

theorem length_applyFields (fields : Option (List Int)) (rows : List MSRow)
    (flags : List (List Bool)) (h : flags.length = rows.length) :
    (applyFields fields rows flags).length = rows.length := by
  cases fields <;> simp [applyFields, h]

theorem length_applyAutocorr (rows : List MSRow) (flags : List (List Bool))
    (h : flags.length = rows.length) :
    (applyAutocorr rows flags).length = rows.length := by
  simp [applyAutocorr, h]

theorem length_applyChannels (channels : Option (List Bool))
    (flags : List (List Bool)) :
    (applyChannels channels flags).length = flags.length := by
  cases channels <;> simp [applyChannels]

theorem length_applyBaselines (baselines : Option (List (Int × Int)))
    (rows : List MSRow) (flags : List (List Bool)) (h : flags.length = rows.length) :
    (applyBaselines baselines rows flags).length = rows.length := by
  cases baselines <;> simp [applyBaselines, h]

/-- The autocorrelation step makes row `r` all-true when its antennas agree. -/
theorem applyAutocorr_row (rows : List MSRow) (flags : List (List Bool)) (r : Nat)
    (hlen : flags.length = rows.length) (hr : r < rows.length)
    (ha : (rows.getD r default).a1 = (rows.getD r default).a2) :
    ((applyAutocorr rows flags).getD r []).all (fun b => b) = true := by
  unfold applyAutocorr
  have hz : r < (List.zip rows flags).length := by
    simp [hlen, hr]
  rw [List.getD_eq_getElem _ _ (by simpa using hz), List.getElem_map, List.getElem_zip]
  have ha2 : rows[r].a1 = rows[r].a2 := by
    rwa [List.getD_eq_getElem _ _ hr] at ha
  simp [ha2]

/-- The channel step preserves an all-true row. -/
theorem applyChannels_row (channels : Option (List Bool)) (flags : List (List Bool))
    (r : Nat) (h : (flags.getD r []).all (fun b => b) = true) :
    ((applyChannels channels flags).getD r []).all (fun b => b) = true := by
  cases channels with
  | none => exact h
  | some ch =>
    unfold applyChannels
    rcases Nat.lt_or_ge r flags.length with hr | hr
    · rw [List.getD_eq_getElem _ _ (by simpa using hr), List.getElem_map]
      rw [List.getD_eq_getElem _ _ hr] at h
      exact all_true_zipWith_or_not ch h
    · rw [List.getD_eq_default _ _ (by simpa using hr)]
      simp

/-- The baseline step preserves an all-true row. -/
theorem applyBaselines_row (baselines : Option (List (Int × Int)))
    (rows : List MSRow) (flags : List (List Bool)) (r : Nat)
    (hlen : flags.length = rows.length)
    (h : (flags.getD r []).all (fun b => b) = true) :
    ((applyBaselines baselines rows flags).getD r []).all (fun b => b) = true := by
  cases baselines with
  | none => exact h
  | some bl =>
    unfold applyBaselines
    rcases Nat.lt_or_ge r rows.length with hr | hr
    · have hz : r < (List.zip rows flags).length := by
        simp [hlen, hr]
      rw [List.getD_eq_getElem _ _ (by simpa using hz), List.getElem_map,
        List.getElem_zip]
      rw [List.getD_eq_getElem _ _ (by omega : r < flags.length)] at h
      by_cases hin : bl.any (fun b =>
          (decide (b.1 = (rows[r]).a1) && decide (b.2 = (rows[r]).a2)) ||
          (decide (b.2 = (rows[r]).a1) && decide (b.1 = (rows[r]).a2))) = true
      · simpa [hin] using h
      · simp [hin]
    · have hle : ((List.zip rows flags).map (fun p =>
          if bl.any (fun b =>
            (decide (b.1 = p.1.a1) && decide (b.2 = p.1.a2)) ||
            (decide (b.2 = p.1.a1) && decide (b.1 = p.1.a2)))
          then p.2 else p.2.map (fun _ => true))).length ≤ r := by
        simp [hlen]
        omega
      rw [List.getD_eq_default _ _ hle]
      simp

/-- `data[flags] = np.nan` at the row level. -/
theorem nanApply_row (data : List (List (Option Q))) (flags : List (List Bool))
    (r : Nat) (h : (flags.getD r []).all (fun b => b) = true) :
    ((nanApply data flags).getD r []).all (fun x : Option Q => x.isNone) = true := by
  unfold nanApply
  rcases Nat.lt_or_ge r (min data.length flags.length) with hr | hr
  · rw [List.getD_eq_getElem _ _ (by simpa [List.length_zipWith] using hr),
      List.getElem_zipWith]
    have hrf : r < flags.length := lt_of_lt_of_le hr (min_le_right _ _)
    rw [List.getD_eq_getElem _ _ hrf] at h
    exact nan_of_all_true_flags _ _ h
  · rw [List.getD_eq_default _ _ (by simpa [List.length_zipWith] using hr)]
    simp

/-- A sample whose `collaflags` entry is true is excluded from every grid cell. -/
theorem activeVisibs_excluded (u v : List Q) (collaflags : List Bool)
    (uu vv duv uvmin : Q) (uvmax : Option Q) (r : Nat)
    (hc : collaflags.getD r false = true) :
    (activeVisibs u v collaflags uu vv duv uvmin uvmax).getD r false = false := by
  unfold activeVisibs
  rcases Nat.lt_or_ge r (min (min u.length v.length) collaflags.length) with hr | hr
  · rw [List.getD_eq_getElem _ _ (by simpa [List.length_zipWith] using hr),
      List.getElem_zipWith]
    have hrc : r < collaflags.length := lt_of_lt_of_le hr (min_le_right _ _)
    rw [List.getD_eq_getElem _ _ hrc] at hc
    simp [hc]
  · rw [List.getD_eq_default _ _ (by simpa [List.length_zipWith] using hr)]

/-- C10: `readdata` unconditionally flags every autocorrelation row and then
sets all flagged data values to NaN, for every configuration of fields,
channels, baselines and polarisation; consequently the row's `collaflags` entry
is true and the gridding of `phazer` excludes it from every cell
(`active_visibs[collaflags] = False`), in every grouping mode. -/
theorem readdata_autocorr_always_excluded (rows : List MSRow) (pol : String)
    (fields : Option (List Int)) (channels : Option (List Bool))
    (baselines : Option (List (Int × Int))) (dataOut : List (List (Option Q)))
    (flagsOut : List (List Bool)) (r : Nat) (hr : r < rows.length)
    (hauto : (rows.getD r default).a1 = (rows.getD r default).a2)
    (hok : readdataModel rows pol fields channels baselines =
      Except.ok (dataOut, flagsOut)) :
    ((flagsOut.getD r []).all (fun b => b) = true) ∧
    ((dataOut.getD r []).all (fun x : Option Q => x.isNone) = true) ∧
    (∀ (u v : List Q) (uu vv duv uvmin : Q) (uvmax : Option Q),
      (activeVisibs u v (collaflagsOf flagsOut) uu vv duv uvmin uvmax).getD r
        false = false) := by
  by_cases hpol : pol = "i" ∨ pol = "q"
  · rw [readdataModel, if_pos hpol] at hok
    simp only [Except.ok.injEq, Prod.mk.injEq] at hok
    obtain ⟨hd, hf⟩ := hok
    have hf0len : ((readCombined rows pol).map (List.map Prod.snd)).length =
        rows.length := by simp [readCombined]
    have h1len := length_applyFields fields rows
      ((readCombined rows pol).map (List.map Prod.snd)) hf0len
    have h2 := applyAutocorr_row rows
      (applyFields fields rows ((readCombined rows pol).map (List.map Prod.snd)))
      r h1len hr hauto
    have h2len := length_applyAutocorr rows
      (applyFields fields rows ((readCombined rows pol).map (List.map Prod.snd)))
      h1len
    have h3 := applyChannels_row channels
      (applyAutocorr rows
        (applyFields fields rows ((readCombined rows pol).map (List.map Prod.snd))))
      r h2
    have h3len : (applyChannels channels (applyAutocorr rows
        (applyFields fields rows
          ((readCombined rows pol).map (List.map Prod.snd))))).length =
        rows.length := by
      rw [length_applyChannels, h2len]
    have h4 := applyBaselines_row baselines rows
      (applyChannels channels (applyAutocorr rows
        (applyFields fields rows ((readCombined rows pol).map (List.map Prod.snd)))))
      r h3len h3
    have h4len := length_applyBaselines baselines rows
      (applyChannels channels (applyAutocorr rows
        (applyFields fields rows ((readCombined rows pol).map (List.map Prod.snd)))))
      h3len
    refine ⟨?_, ?_, ?_⟩
    · rw [← hf]
      exact h4
    · rw [← hd]
      exact nanApply_row _ _ r h4
    · intro u v uu vv duv uvmin uvmax
      apply activeVisibs_excluded
      rw [← hf]
      unfold collaflagsOf
      have hr4 : r < (applyBaselines baselines rows (applyChannels channels
          (applyAutocorr rows (applyFields fields rows
            ((readCombined rows pol).map (List.map Prod.snd)))))).length := by
        rw [h4len]; exact hr
      rw [List.getD_eq_getElem _ _ (by simpa using hr4), List.getElem_map]
      rw [List.getD_eq_getElem _ _ hr4] at h4
      exact h4
  · rw [readdataModel, if_neg hpol] at hok
    simp at hok

/-- Witness for `readdata_autocorr_always_excluded` at a concrete input: one
autocorrelation row (antennas 0 and 0), one channel with both polarisations
present. -/
theorem readdata_autocorr_always_excluded_witness :
    (0 < ([⟨0, 0, 0, [(Q.ofInt 1, Q.ofInt 2)], [(false, false)]⟩] : List MSRow).length) ∧
    ((([⟨0, 0, 0, [(Q.ofInt 1, Q.ofInt 2)], [(false, false)]⟩] : List MSRow).getD 0
        default).a1 =
      (([⟨0, 0, 0, [(Q.ofInt 1, Q.ofInt 2)], [(false, false)]⟩] : List MSRow).getD 0
        default).a2) ∧
    (readdataModel [⟨0, 0, 0, [(Q.ofInt 1, Q.ofInt 2)], [(false, false)]⟩] "i"
        none none none = Except.ok ([[none]], [[true]])) ∧
    ((([[true]] : List (List Bool)).getD 0 []).all (fun b => b) = true ∧
      (([[none]] : List (List (Option Q))).getD 0 []).all
        (fun x : Option Q => x.isNone) = true ∧
      (∀ (u v : List Q) (uu vv duv uvmin : Q) (uvmax : Option Q),
        (activeVisibs u v (collaflagsOf [[true]]) uu vv duv uvmin uvmax).getD 0
          false = false)) :=
  ⟨by decide, by decide, by decide,
    readdata_autocorr_always_excluded
      [⟨0, 0, 0, [(Q.ofInt 1, Q.ofInt 2)], [(false, false)]⟩] "i" none none none
      [[none]] [[true]] 0 (by decide) (by decide) (by decide)⟩

end Sunblocker
